import Mathlib

/-!
Verification of the filtering + aggregation pipeline of the bike-rental
dashboard (`src/dashboard.py` and `src/dashboard/dashboard.py`).

The two scripts load a table of hourly rental records, filter it by a
conjunction of user-chosen predicates, and compute five aggregate views
(hourly, daily, monthly, yearly, customer-RFM).  We embed the records as a
structure, datasets as lists of records, dates as integer day numbers,
normalized temperatures and means as rationals, and the float result of the
year-over-year division as an exact value extended with the IEEE special
values that numpy produces on division by zero.
-/

namespace Bike

/-- One row of `main_data.csv`, with the columns the pipeline reads.
`dteday` is the calendar date as an integer day number; `temp` is the
normalized temperature. -/
structure Record where
  instant : Nat
  dteday : Int
  season : Nat
  yr : Nat
  mnth : Nat
  hr : Nat
  weekday : Nat
  workingday : Nat
  weathersit : Nat
  temp : Rat
  casual : Nat
  registered : Nat
  cnt : Nat
deriving DecidableEq, Repr

/-- The sidebar's "Working Day" radio button: "All", "Working Day",
"Holiday/Weekend". -/
inductive WorkingDayMode where
  | all
  | workingDay
  | holidayWeekend
deriving DecidableEq, Repr

/-- The sidebar filter state: date pickers, season and weather multiselects,
the working-day radio, and the temperature range slider. -/
structure FilterCriteria where
  startDate : Int
  endDate : Int
  seasons : List Nat
  weathers : List Nat
  workingday : WorkingDayMode
  tempLo : Rat
  tempHi : Rat
deriving DecidableEq, Repr

/-- The boolean mask of the first filtering statement of both scripts:
date within [start, end], season selected, weather selected, temperature
between the slider bounds. -/
def baseMask (c : FilterCriteria) (r : Record) : Bool :=
  (decide (c.startDate ≤ r.dteday)) &&
  (decide (r.dteday ≤ c.endDate)) &&
  (c.seasons.contains r.season) &&
  (c.weathers.contains r.weathersit) &&
  (decide (c.tempLo ≤ r.temp) && decide (r.temp ≤ c.tempHi))

/-- `date_filtered_df` of `src/dashboard.py` (lines 64-75): the conjunctive
mask is applied first; then, when the radio is not "All", a second filtering
keeps rows whose `workingday` code is 1 for "Working Day" and 0 for
"Holiday/Weekend". -/
def date_filtered_df (df : List Record) (c : FilterCriteria) : List Record :=
  let d := df.filter (baseMask c)
  match c.workingday with
  | .all => d
  | .workingDay => d.filter (fun r => r.workingday == 1)
  | .holidayWeekend => d.filter (fun r => r.workingday == 0)

/-- The retention predicate as the spec states it: one conjunction of the
five predicates (date range, season set, weather set, temperature range,
working-day mode). -/
def retainPred (c : FilterCriteria) (r : Record) : Bool :=
  (decide (c.startDate ≤ r.dteday)) &&
  (decide (r.dteday ≤ c.endDate)) &&
  (c.seasons.contains r.season) &&
  (c.weathers.contains r.weathersit) &&
  (decide (c.tempLo ≤ r.temp) && decide (r.temp ≤ c.tempHi)) &&
  (match c.workingday with
   | .all => true
   | .workingDay => r.workingday == 1
   | .holidayWeekend => r.workingday == 0)

theorem date_filtered_df_eq_filter (df : List Record) (c : FilterCriteria) :
    date_filtered_df df c = df.filter (retainPred c) := by
  unfold date_filtered_df retainPred
  cases c.workingday <;>
    simp only [List.filter_filter] <;>
    refine List.filter_congr fun r _ => ?_ <;>
    simp only [baseMask] <;>
    first
      | rw [Bool.and_true]
      | rw [Bool.and_comm]

theorem mem_date_filtered_df (df : List Record) (c : FilterCriteria) (r : Record) :
    r ∈ date_filtered_df df c ↔ r ∈ df ∧ retainPred c r = true := by
  rw [date_filtered_df_eq_filter, List.mem_filter]

/-- `Series.max()`: the largest element of a list, a default for the empty
list (pandas would return NaN/NaT there; the pipeline only reads it on
nonempty data). -/
def seriesMax {α : Type} [LinearOrder α] (dflt : α) : List α → α
  | [] => dflt
  | [x] => x
  | x :: y :: xs => max x (seriesMax dflt (y :: xs))

/-- `Series.min()`: the least element of a list, a default for the empty
list. -/
def seriesMin {α : Type} [LinearOrder α] (dflt : α) : List α → α
  | [] => dflt
  | [x] => x
  | x :: y :: xs => min x (seriesMin dflt (y :: xs))

theorem le_seriesMax {α : Type} [LinearOrder α] (dflt : α) :
    ∀ (l : List α), ∀ x ∈ l, x ≤ seriesMax dflt l
  | [x], a, ha => by
      simp only [List.mem_singleton] at ha
      simp [ha, seriesMax]
  | x :: y :: xs, a, ha => by
      rcases List.mem_cons.mp ha with h | h
      · simp [h, seriesMax]
      · exact le_trans (le_seriesMax dflt (y :: xs) a h) (le_max_right _ _)

theorem seriesMax_mem {α : Type} [LinearOrder α] (dflt : α) :
    ∀ (l : List α), l ≠ [] → seriesMax dflt l ∈ l
  | [x], _ => by simp [seriesMax]
  | x :: y :: xs, _ => by
      rcases max_choice x (seriesMax dflt (y :: xs)) with h | h <;>
        rw [seriesMax, h]
      · exact List.mem_cons_self _ _
      · exact List.mem_cons_of_mem _ (seriesMax_mem dflt (y :: xs) (by simp))

theorem seriesMin_le {α : Type} [LinearOrder α] (dflt : α) :
    ∀ (l : List α), ∀ x ∈ l, seriesMin dflt l ≤ x
  | [x], a, ha => by
      simp only [List.mem_singleton] at ha
      simp [ha, seriesMin]
  | x :: y :: xs, a, ha => by
      rcases List.mem_cons.mp ha with h | h
      · simp [h, seriesMin]
      · exact le_trans (min_le_right _ _) (seriesMin_le dflt (y :: xs) a h)

theorem seriesMin_mem {α : Type} [LinearOrder α] (dflt : α) :
    ∀ (l : List α), l ≠ [] → seriesMin dflt l ∈ l
  | [x], _ => by simp [seriesMin]
  | x :: y :: xs, _ => by
      rcases min_choice x (seriesMin dflt (y :: xs)) with h | h <;>
        rw [seriesMin, h]
      · exact List.mem_cons_self _ _
      · exact List.mem_cons_of_mem _ (seriesMin_mem dflt (y :: xs) (by simp))

/-- The group keys produced by `DataFrame.groupby(col)`: the distinct values
of the column, sorted ascending (pandas sorts keys by default). -/
def groupKeys (key : Record → Nat) (df : List Record) : List Nat :=
  List.insertionSort (· ≤ ·) (df.map key).dedup

/-- The rows of one group of `DataFrame.groupby(col)`. -/
def groupRows (key : Record → Nat) (df : List Record) (k : Nat) : List Record :=
  df.filter (fun r => key r == k)

/-- `groupby(col)[field].mean()` for one group, as an exact rational. -/
def meanOf (f : Record → Nat) (g : List Record) : Rat :=
  (((g.map f).sum : Nat) : Rat) / (g.length : Rat)

/-- `hourly_trend = date_filtered_df.groupby('hr')['cnt'].mean().reset_index()`. -/
def hourly_trend (df : List Record) : List (Nat × Rat) :=
  (groupKeys (·.hr) df).map fun h => (h, meanOf (·.cnt) (groupRows (·.hr) df h))

/-- `daily_trend = date_filtered_df.groupby('weekday')['cnt'].mean().reset_index()`. -/
def daily_trend (df : List Record) : List (Nat × Rat) :=
  (groupKeys (·.weekday) df).map fun w => (w, meanOf (·.cnt) (groupRows (·.weekday) df w))

/-- `daily_user_trend = date_filtered_df.groupby('weekday')[['casual','registered']].mean()`. -/
def daily_user_trend (df : List Record) : List (Nat × Rat × Rat) :=
  (groupKeys (·.weekday) df).map fun w =>
    (w, meanOf (·.casual) (groupRows (·.weekday) df w),
        meanOf (·.registered) (groupRows (·.weekday) df w))

/-- `monthly_trend = date_filtered_df.groupby('mnth')['cnt'].mean().reset_index()`. -/
def monthly_trend (df : List Record) : List (Nat × Rat) :=
  (groupKeys (·.mnth) df).map fun m => (m, meanOf (·.cnt) (groupRows (·.mnth) df m))

/-- `yearly_trend = date_filtered_df.groupby('yr')['cnt'].agg(['mean','sum'])`:
one row (year flag, mean, sum) per year group. -/
def yearly_trend (df : List Record) : List (Nat × Rat × Int) :=
  (groupKeys (·.yr) df).map fun y =>
    (y, meanOf (·.cnt) (groupRows (·.yr) df y),
        (((groupRows (·.yr) df y).map (·.cnt)).sum : Int))

/-- A numpy float64 value, kept exact where finite. -/
inductive PyFloat where
  | finite (q : Rat)
  | posInf
  | negInf
  | nan
deriving DecidableEq, Repr

/-- numpy's true division of two int64 scalars: a float, with the IEEE
special values (and only a RuntimeWarning, no exception) when the
denominator is 0. -/
def numpyIntDiv (num den : Int) : PyFloat :=
  if den = 0 then
    if num = 0 then .nan else if 0 < num then .posInf else .negInf
  else .finite ((num : Rat) / (den : Rat))

/-- Multiplication of a numpy float by the scalar 100. -/
def PyFloat.mul100 : PyFloat → PyFloat
  | .finite q => .finite (q * 100)
  | x => x

/-- `yoy_growth = (sum.iloc[1] - sum.iloc[0]) / sum.iloc[0] * 100`.
`none` models the IndexError that `.iloc[1]` raises when the grouped table
has fewer than two rows. -/
def yoy_growth (df : List Record) : Option PyFloat :=
  match (yearly_trend df).map (fun row => row.2.2) with
  | s0 :: s1 :: _ => some ((numpyIntDiv (s1 - s0) s0).mul100)
  | _ => none

/-- The RFM table: `date_filtered_df.groupby('registered').agg(...)` with
recency `(last_date - group max date).days`, frequency `count('instant')`,
monetary `sum('cnt')`; one row (customer_id, recency, frequency,
total_rentals) per distinct `registered` value. -/
def rfm_df (df : List Record) : List (Nat × Int × Nat × Nat) :=
  let last_date := seriesMax 0 (df.map (·.dteday))
  (groupKeys (·.registered) df).map fun v =>
    (v, last_date - seriesMax 0 ((groupRows (·.registered) df v).map (·.dteday)),
        (groupRows (·.registered) df v).length,
        ((groupRows (·.registered) df v).map (·.cnt)).sum)

theorem groupKeys_sorted (key : Record → Nat) (df : List Record) :
    List.Sorted (· ≤ ·) (groupKeys key df) :=
  List.sorted_insertionSort _ _

theorem groupKeys_nodup (key : Record → Nat) (df : List Record) :
    (groupKeys key df).Nodup :=
  (List.perm_insertionSort _ _).nodup_iff.mpr (List.nodup_dedup _)

theorem mem_groupKeys {key : Record → Nat} {df : List Record} {k : Nat} :
    k ∈ groupKeys key df ↔ ∃ r ∈ df, key r = k := by
  unfold groupKeys
  rw [List.mem_insertionSort, List.mem_dedup, List.mem_map]

theorem groupKeys_perm (key : Record → Nat) {df df' : List Record} (h : df.Perm df') :
    groupKeys key df = groupKeys key df' :=
  List.eq_of_perm_of_sorted
    ((List.perm_insertionSort _ _).trans (((h.map key).dedup).trans
      (List.perm_insertionSort _ _).symm))
    (groupKeys_sorted key df) (groupKeys_sorted key df')

theorem mem_groupRows {key : Record → Nat} {df : List Record} {k : Nat} {r : Record} :
    r ∈ groupRows key df k ↔ r ∈ df ∧ key r = k := by
  simp [groupRows]

theorem groupRows_ne_nil {key : Record → Nat} {df : List Record} {k : Nat}
    (h : ∃ r ∈ df, key r = k) : groupRows key df k ≠ [] := by
  obtain ⟨r, hr, hk⟩ := h
  intro hnil
  have : r ∈ groupRows key df k := mem_groupRows.mpr ⟨hr, hk⟩
  rw [hnil] at this
  exact absurd this (List.not_mem_nil r)

theorem groupRows_perm (key : Record → Nat) (k : Nat) {df df' : List Record}
    (h : df.Perm df') : (groupRows key df k).Perm (groupRows key df' k) :=
  h.filter _

theorem meanOf_perm (f : Record → Nat) {g g' : List Record} (h : g.Perm g') :
    meanOf f g = meanOf f g' := by
  unfold meanOf
  rw [(h.map f).sum_eq, h.length_eq]

theorem meanOf_le {f : Record → Nat} {g : List Record} (hg : g ≠ []) {b : Nat}
    (hb : ∀ r ∈ g, f r ≤ b) : meanOf f g ≤ (b : Rat) := by
  have hlen : (0 : Rat) < (g.length : Rat) := by
    exact_mod_cast List.length_pos.mpr hg
  rw [meanOf, div_le_iff₀ hlen]
  have h := List.sum_le_card_nsmul (g.map f) b (by
    intro x hx
    obtain ⟨r, hr, rfl⟩ := List.mem_map.mp hx
    exact hb r hr)
  rw [List.length_map, smul_eq_mul] at h
  calc ((g.map f).sum : Rat) ≤ ((g.length * b : Nat) : Rat) := by exact_mod_cast h
    _ = (b : Rat) * (g.length : Rat) := by push_cast; ring

theorem le_meanOf {f : Record → Nat} {g : List Record} (hg : g ≠ []) {a : Nat}
    (ha : ∀ r ∈ g, a ≤ f r) : (a : Rat) ≤ meanOf f g := by
  have hlen : (0 : Rat) < (g.length : Rat) := by
    exact_mod_cast List.length_pos.mpr hg
  rw [meanOf, le_div_iff₀ hlen]
  have h := List.card_nsmul_le_sum (g.map f) a (by
    intro x hx
    obtain ⟨r, hr, rfl⟩ := List.mem_map.mp hx
    exact ha r hr)
  rw [List.length_map, smul_eq_mul] at h
  calc (a : Rat) * (g.length : Rat) = ((g.length * a : Nat) : Rat) := by push_cast; ring
    _ ≤ ((g.map f).sum : Rat) := by exact_mod_cast h

/-- C1: a record appears in the output of the filtering step iff all five
predicates hold of it simultaneously — date in [start, end], season code
accepted, weather code accepted, temperature in [low, high], and the
working-day mode is All or matches the record's `workingday` code (Working
Day requires 1, Holiday/Weekend requires 0) — and applying the working-day
predicate after the others yields the same result as one conjunction. -/
theorem C1_apply_filters_conjunction (df : List Record) (c : FilterCriteria) :
    (∀ r : Record, r ∈ date_filtered_df df c ↔
        r ∈ df ∧
        (c.startDate ≤ r.dteday ∧ r.dteday ≤ c.endDate) ∧
        r.season ∈ c.seasons ∧
        r.weathersit ∈ c.weathers ∧
        (c.tempLo ≤ r.temp ∧ r.temp ≤ c.tempHi) ∧
        (c.workingday = .all ∨
         (c.workingday = .workingDay ∧ r.workingday = 1) ∨
         (c.workingday = .holidayWeekend ∧ r.workingday = 0))) ∧
    date_filtered_df df c = df.filter (retainPred c) := by
  refine ⟨fun r => ?_, date_filtered_df_eq_filter df c⟩
  rw [mem_date_filtered_df]
  unfold retainPred
  cases h : c.workingday <;> simp [h] <;> tauto

/-- C8: the filtering step is idempotent — applying the same criteria to its
own output returns that output unchanged. -/
theorem C8_apply_filters_idempotent (df : List Record) (c : FilterCriteria) :
    date_filtered_df (date_filtered_df df c) c = date_filtered_df df c := by
  rw [date_filtered_df_eq_filter df c, date_filtered_df_eq_filter,
    List.filter_filter]
  exact List.filter_congr fun r _ => by cases h : retainPred c r <;> simp [h]

/-- A two-record dataset whose dates span [0, 1]. -/
def c2df : List Record :=
  [⟨1, 0, 1, 0, 1, 0, 6, 0, 1, 0, 3, 13, 16⟩,
   ⟨2, 1, 1, 0, 1, 1, 6, 0, 1, 0, 8, 32, 40⟩]

/-- Criteria whose date range [10, 20] lies outside `c2df`'s date span, with
every season and weather code accepted, the full temperature range and
working-day mode All. -/
def c2crit : FilterCriteria := ⟨10, 20, [1, 2, 3, 4], [1, 2, 3, 4], .all, 0, 1⟩

/-- C2: filtering `c2df` to a date range outside its span yields the empty
subset; on the empty subset the hourly, daily, monthly and customer views
are all empty without error, but the yearly view's year-over-year growth
reads rows 0 and 1 of the empty per-year table, so `.iloc[1]` raises an
IndexError (modelled by `none`) — the code does not degrade gracefully on
the empty result set. -/
theorem C2_empty_result_yearly_raises :
    date_filtered_df c2df c2crit = [] ∧
    hourly_trend [] = [] ∧ daily_trend [] = [] ∧ daily_user_trend [] = [] ∧
    monthly_trend [] = [] ∧ yearly_trend [] = [] ∧ rfm_df [] = [] ∧
    yoy_growth [] = none :=
  ⟨rfl, rfl, rfl, rfl, rfl, rfl, rfl, rfl⟩

/-- A dataset whose year groups have `cnt` sums 0 (year flag 0) and 150
(year flag 1). -/
def c3df : List Record :=
  [⟨1, 0, 1, 0, 1, 0, 0, 0, 1, 0, 0, 0, 0⟩,
   ⟨2, 365, 1, 1, 1, 0, 0, 0, 1, 0, 50, 100, 150⟩]

/-- C3 counterexample: with year sums [0, 150] the code's year-over-year
growth is the float +inf produced by numpy's division by zero, which is not
a NaN/undefined marker. -/
theorem C3_zero_denominator_gives_inf :
    (yearly_trend c3df).map (fun row => row.2.2) = [0, 150] ∧
    yoy_growth c3df = some PyFloat.posInf ∧
    PyFloat.posInf ≠ PyFloat.nan :=
  ⟨rfl, rfl, by simp⟩

/-- C3 (amended): the year-over-year growth is computed from the first two
year groups' `cnt` sums; when `sum[0]` is nonzero it equals exactly
`(sum[1] - sum[0]) / sum[0] * 100`, and when `sum[0]` is 0 no exception is
raised but the result is the numpy division-by-zero float (+inf, -inf or
NaN), not necessarily a NaN/undefined marker. -/
theorem C3_yoy_growth_formula (df : List Record) (s0 s1 : Int) (rest : List Int)
    (h : (yearly_trend df).map (fun row => row.2.2) = s0 :: s1 :: rest) :
    yoy_growth df = some ((numpyIntDiv (s1 - s0) s0).mul100) ∧
    (s0 ≠ 0 →
      yoy_growth df = some (.finite (((s1 : Rat) - (s0 : Rat)) / (s0 : Rat) * 100))) ∧
    (s0 = 0 → yoy_growth df ≠ none) := by
  have hy : yoy_growth df = some ((numpyIntDiv (s1 - s0) s0).mul100) := by
    unfold yoy_growth
    rw [h]
  refine ⟨hy, fun h0 => ?_, fun _ => by rw [hy]; simp⟩
  rw [hy]
  simp only [numpyIntDiv, h0, if_false, PyFloat.mul100]
  norm_num

/-- A dataset whose year groups have `cnt` sums 100 and 150. -/
def c3wdf : List Record :=
  [⟨1, 0, 1, 0, 1, 0, 0, 0, 1, 0, 30, 70, 100⟩,
   ⟨2, 365, 1, 1, 1, 0, 0, 0, 1, 0, 50, 100, 150⟩]

/-- Witness for C3: on a dataset with year sums [100, 150] the growth is
exactly 50.0. -/
theorem C3_yoy_growth_formula_witness :
    (yearly_trend c3wdf).map (fun row => row.2.2) = [(100 : Int), 150] ∧
    yoy_growth c3wdf = some (PyFloat.finite 50) := by
  have h : (yearly_trend c3wdf).map (fun row => row.2.2) = (100 : Int) :: 150 :: [] := rfl
  refine ⟨h, ?_⟩
  have h2 := (C3_yoy_growth_formula c3wdf 100 150 [] h).2.1 (by norm_num)
  have e : (((150 : Int) : Rat) - ((100 : Int) : Rat)) / ((100 : Int) : Rat) * 100 = 50 := by
    norm_num
  rw [h2, e]

/-- The sidebar's default state (lines 30-61 of both scripts): date range
from the dataset's min to max date, all four season codes, all four weather
codes, working-day "All", and the full temperature range. -/
def identityCriteria (df : List Record) : FilterCriteria :=
  ⟨seriesMin 0 (df.map (·.dteday)), seriesMax 0 (df.map (·.dteday)),
   [1, 2, 3, 4], [1, 2, 3, 4], .all,
   seriesMin 0 (df.map (·.temp)), seriesMax 0 (df.map (·.temp))⟩

/-- C7: on a dataset whose season and weather codes lie in their declared
domains, filtering with the full date range, all season codes, all weather
codes, the full temperature range and working-day mode All returns the
dataset unchanged. -/
theorem C7_default_filter_identity (df : List Record)
    (hs : ∀ r ∈ df, r.season ∈ ([1, 2, 3, 4] : List Nat))
    (hw : ∀ r ∈ df, r.weathersit ∈ ([1, 2, 3, 4] : List Nat)) :
    date_filtered_df df (identityCriteria df) = df := by
  rw [date_filtered_df_eq_filter]
  apply List.filter_eq_self.mpr
  intro r hr
  have h1 := seriesMin_le (0 : Int) (df.map (·.dteday)) r.dteday
    (List.mem_map_of_mem _ hr)
  have h2 := le_seriesMax (0 : Int) (df.map (·.dteday)) r.dteday
    (List.mem_map_of_mem _ hr)
  have h3 := seriesMin_le (0 : Rat) (df.map (·.temp)) r.temp
    (List.mem_map_of_mem _ hr)
  have h4 := le_seriesMax (0 : Rat) (df.map (·.temp)) r.temp
    (List.mem_map_of_mem _ hr)
  simp [retainPred, identityCriteria, h1, h2, h3, h4, hs r hr, hw r hr]

/-- Witness for C7 on the concrete dataset `c2df`. -/
theorem C7_default_filter_identity_witness :
    date_filtered_df c2df (identityCriteria c2df) = c2df :=
  C7_default_filter_identity c2df (by decide) (by decide)

/-- C5: the monthly view's keys are sorted ascending (January first through
December), appear exactly once per month present in the filtered input, each
row's metric is the mean of `cnt` over that month's records, and the view is
the same for any reordering of the input rows. -/
theorem C5_monthly_view_ordered (df df' : List Record) (hperm : df.Perm df') :
    List.Sorted (· ≤ ·) ((monthly_trend df).map Prod.fst) ∧
    ((monthly_trend df).map Prod.fst).Nodup ∧
    (∀ m : Nat, m ∈ (monthly_trend df).map Prod.fst ↔ ∃ r ∈ df, r.mnth = m) ∧
    (∀ p ∈ monthly_trend df, p.2 = meanOf (·.cnt) (groupRows (·.mnth) df p.1)) ∧
    monthly_trend df = monthly_trend df' := by
  have hkeys : (monthly_trend df).map Prod.fst = groupKeys (·.mnth) df := by
    unfold monthly_trend
    rw [List.map_map]
    exact List.map_id _
  refine ⟨?_, ?_, ?_, ?_, ?_⟩
  · rw [hkeys]; exact groupKeys_sorted _ _
  · rw [hkeys]; exact groupKeys_nodup _ _
  · intro m; rw [hkeys]; exact mem_groupKeys
  · intro p hp
    obtain ⟨m, _, rfl⟩ := List.mem_map.mp hp
    rfl
  · unfold monthly_trend
    rw [groupKeys_perm (·.mnth) hperm]
    exact List.map_congr_left fun m _ => by
      rw [meanOf_perm _ (groupRows_perm _ m hperm)]

/-- `c2df` with its two rows swapped. -/
def c2dfR : List Record :=
  [⟨2, 1, 1, 0, 1, 1, 6, 0, 1, 0, 8, 32, 40⟩,
   ⟨1, 0, 1, 0, 1, 0, 6, 0, 1, 0, 3, 13, 16⟩]

/-- Witness for C5 on `c2df` and its row-reversal `c2dfR`. -/
theorem C5_monthly_view_ordered_witness :
    List.Sorted (· ≤ ·) ((monthly_trend c2df).map Prod.fst) ∧
    ((monthly_trend c2df).map Prod.fst).Nodup ∧
    (∀ m : Nat, m ∈ (monthly_trend c2df).map Prod.fst ↔ ∃ r ∈ c2df, r.mnth = m) ∧
    (∀ p ∈ monthly_trend c2df, p.2 = meanOf (·.cnt) (groupRows (·.mnth) c2df p.1)) ∧
    monthly_trend c2df = monthly_trend c2dfR :=
  C5_monthly_view_ordered c2df c2dfR
    (by unfold c2df c2dfR; exact List.Perm.swap _ _ _)

/-- Three records: hour 0 with cnt 10, hour 0 with cnt 20, hour 1 with
cnt 5. -/
def c6df : List Record :=
  [⟨1, 0, 1, 0, 1, 0, 0, 0, 1, 0, 5, 5, 10⟩,
   ⟨2, 0, 1, 0, 1, 0, 0, 0, 1, 0, 10, 10, 20⟩,
   ⟨3, 0, 1, 0, 1, 1, 0, 0, 1, 0, 2, 3, 5⟩]

/-- C6: for input records with hours in [0, 23] the hourly view has at most
24 rows, with pairwise-distinct hour keys in [0, 23] ordered ascending, and
every row's mean lies between the least and the greatest `cnt` of the input;
on the three-record example it is hour 0 → mean 15, hour 1 → mean 5. -/
theorem C6_hourly_view (df : List Record) (hh : ∀ r ∈ df, r.hr ≤ 23) :
    (hourly_trend df).length ≤ 24 ∧
    ((hourly_trend df).map Prod.fst).Nodup ∧
    (∀ k ∈ (hourly_trend df).map Prod.fst, k ≤ 23) ∧
    List.Sorted (· ≤ ·) ((hourly_trend df).map Prod.fst) ∧
    (∀ p ∈ hourly_trend df,
      ((seriesMin 0 (df.map (·.cnt)) : Nat) : Rat) ≤ p.2 ∧
      p.2 ≤ ((seriesMax 0 (df.map (·.cnt)) : Nat) : Rat)) ∧
    hourly_trend c6df = [(0, 15), (1, 5)] := by
  have hkeys : (hourly_trend df).map Prod.fst = groupKeys (·.hr) df := by
    unfold hourly_trend
    rw [List.map_map]
    exact List.map_id _
  have hex : hourly_trend c6df = [(0, 15), (1, 5)] := by
    simp [hourly_trend, groupKeys, groupRows, meanOf, c6df,
      List.insertionSort, List.orderedInsert, List.dedup]
    norm_num
  refine ⟨?_, ?_, ?_, ?_, ?_, hex⟩
  · have hnd := groupKeys_nodup (·.hr) df
    have hsub : (groupKeys (·.hr) df).toFinset ⊆ Finset.range 24 := by
      intro k hk
      rw [List.mem_toFinset] at hk
      rw [Finset.mem_range]
      obtain ⟨r, hr, rfl⟩ := mem_groupKeys.mp hk
      exact Nat.lt_succ_of_le (hh r hr)
    have hc : (hourly_trend df).length = (groupKeys (·.hr) df).length := by
      have := congrArg List.length hkeys
      rwa [List.length_map] at this
    rw [hc, ← List.toFinset_card_of_nodup hnd]
    calc (groupKeys (·.hr) df).toFinset.card
        ≤ (Finset.range 24).card := Finset.card_le_card hsub
      _ = 24 := Finset.card_range 24
  · rw [hkeys]; exact groupKeys_nodup _ _
  · intro k hk
    rw [hkeys] at hk
    obtain ⟨r, hr, rfl⟩ := mem_groupKeys.mp hk
    exact hh r hr
  · rw [hkeys]; exact groupKeys_sorted _ _
  · intro p hp
    obtain ⟨h, hm, rfl⟩ := List.mem_map.mp hp
    have hg : groupRows (·.hr) df h ≠ [] :=
      groupRows_ne_nil (mem_groupKeys.mp hm)
    constructor
    · exact le_meanOf hg fun r hr =>
        seriesMin_le 0 (df.map (·.cnt)) r.cnt
          (List.mem_map_of_mem _ (mem_groupRows.mp hr).1)
    · exact meanOf_le hg fun r hr =>
        le_seriesMax 0 (df.map (·.cnt)) r.cnt
          (List.mem_map_of_mem _ (mem_groupRows.mp hr).1)

/-- Witness for C6 on the three-record example dataset. -/
theorem C6_hourly_view_witness :
    (hourly_trend c6df).length ≤ 24 ∧
    ((hourly_trend c6df).map Prod.fst).Nodup ∧
    (∀ k ∈ (hourly_trend c6df).map Prod.fst, k ≤ 23) ∧
    List.Sorted (· ≤ ·) ((hourly_trend c6df).map Prod.fst) ∧
    (∀ p ∈ hourly_trend c6df,
      ((seriesMin 0 (c6df.map (·.cnt)) : Nat) : Rat) ≤ p.2 ∧
      p.2 ≤ ((seriesMax 0 (c6df.map (·.cnt)) : Nat) : Rat)) ∧
    hourly_trend c6df = [(0, 15), (1, 5)] :=
  C6_hourly_view c6df (by decide)

/-- C4: the customer view has exactly one row per distinct `registered`
value present in the filtered data, and each row's recency is the number of
days between the filtered data's maximum date and the group's maximum date,
its frequency is the number of records of the group, and its monetary value
is the sum of `cnt` over the group. -/
theorem C4_customer_view (df : List Record) (hne : df ≠ []) :
    ((rfm_df df).map Prod.fst).Nodup ∧
    (∀ v : Nat, v ∈ (rfm_df df).map Prod.fst ↔ ∃ r ∈ df, r.registered = v) ∧
    (∀ p ∈ rfm_df df,
      p.2.1 = seriesMax 0 (df.map (·.dteday)) -
        seriesMax 0 ((df.filter (fun r => r.registered == p.1)).map (·.dteday)) ∧
      p.2.2.1 = df.countP (fun r => r.registered == p.1) ∧
      p.2.2.2 = ((df.filter (fun r => r.registered == p.1)).map (·.cnt)).sum) := by
  have hkeys : (rfm_df df).map Prod.fst = groupKeys (·.registered) df := by
    simp only [rfm_df]
    rw [List.map_map]
    exact List.map_id _
  refine ⟨?_, ?_, ?_⟩
  · rw [hkeys]; exact groupKeys_nodup _ _
  · intro v; rw [hkeys]; exact mem_groupKeys
  · intro p hp
    simp only [rfm_df] at hp
    obtain ⟨v, _, rfl⟩ := List.mem_map.mp hp
    refine ⟨rfl, ?_, rfl⟩
    show (groupRows (·.registered) df v).length = _
    rw [List.countP_eq_length_filter]
    rfl

/-- Witness for C4 on the concrete nonempty dataset `c2df`. -/
theorem C4_customer_view_witness :
    ((rfm_df c2df).map Prod.fst).Nodup ∧
    (∀ v : Nat, v ∈ (rfm_df c2df).map Prod.fst ↔ ∃ r ∈ c2df, r.registered = v) ∧
    (∀ p ∈ rfm_df c2df,
      p.2.1 = seriesMax 0 (c2df.map (·.dteday)) -
        seriesMax 0 ((c2df.filter (fun r => r.registered == p.1)).map (·.dteday)) ∧
      p.2.2.1 = c2df.countP (fun r => r.registered == p.1) ∧
      p.2.2.2 = ((c2df.filter (fun r => r.registered == p.1)).map (·.cnt)).sum) :=
  C4_customer_view c2df (by simp [c2df])

/-- C10: every recency in the customer view is non-negative; the group of a
record carrying the dataset's maximum date has recency exactly 0; and a
one-record dataset yields a single row with recency 0, frequency 1 and
monetary value the record's `cnt`. -/
theorem C10_recency_invariants (df : List Record) (hne : df ≠ []) :
    (∀ p ∈ rfm_df df, 0 ≤ p.2.1) ∧
    (∀ r ∈ df, r.dteday = seriesMax 0 (df.map (·.dteday)) →
      ∀ p ∈ rfm_df df, p.1 = r.registered → p.2.1 = 0) ∧
    (∀ r : Record, df = [r] → rfm_df df = [(r.registered, 0, 1, r.cnt)]) := by
  have hmaxg : ∀ v : Nat, (∃ r ∈ df, r.registered = v) →
      seriesMax 0 ((groupRows (·.registered) df v).map (·.dteday)) ≤
        seriesMax 0 (df.map (·.dteday)) := by
    intro v hv
    have hg : groupRows (·.registered) df v ≠ [] := groupRows_ne_nil hv
    have hmem := seriesMax_mem (0 : Int)
      ((groupRows (·.registered) df v).map (·.dteday))
      (by simpa using hg)
    obtain ⟨r', hr', heq⟩ := List.mem_map.mp hmem
    rw [← heq]
    exact le_seriesMax 0 (df.map (·.dteday)) r'.dteday
      (List.mem_map_of_mem _ (mem_groupRows.mp hr').1)
  refine ⟨?_, ?_, ?_⟩
  · intro p hp
    simp only [rfm_df] at hp
    obtain ⟨v, hv, rfl⟩ := List.mem_map.mp hp
    exact sub_nonneg.mpr (hmaxg v (mem_groupKeys.mp hv))
  · intro r hr hrd p hp hpv
    simp only [rfm_df] at hp
    obtain ⟨v, hv, rfl⟩ := List.mem_map.mp hp
    simp only at hpv
    have hrg : r ∈ groupRows (·.registered) df v :=
      mem_groupRows.mpr ⟨hr, hpv.symm⟩
    have h1 : seriesMax 0 (df.map (·.dteday)) ≤
        seriesMax 0 ((groupRows (·.registered) df v).map (·.dteday)) := by
      rw [← hrd]
      exact le_seriesMax 0 _ r.dteday (List.mem_map_of_mem _ hrg)
    have h2 := hmaxg v (mem_groupKeys.mp hv)
    show seriesMax 0 (df.map (·.dteday)) -
        seriesMax 0 ((groupRows (·.registered) df v).map (·.dteday)) = 0
    omega
  · intro r hdf
    subst hdf
    simp [rfm_df, groupKeys, groupRows, seriesMax]

/-- Witness for C10 on the concrete nonempty dataset `c2df`. -/
theorem C10_recency_invariants_witness :
    (∀ p ∈ rfm_df c2df, 0 ≤ p.2.1) ∧
    (∀ r ∈ c2df, r.dteday = seriesMax 0 (c2df.map (·.dteday)) →
      ∀ p ∈ rfm_df c2df, p.1 = r.registered → p.2.1 = 0) ∧
    (∀ r : Record, c2df = [r] → rfm_df c2df = [(r.registered, 0, 1, r.cnt)]) :=
  C10_recency_invariants c2df (by simp [c2df])

namespace D2

/-- `date_filtered_df` of `src/dashboard/dashboard.py` (lines 61-72): the
same conjunctive mask followed by the same conditional working-day
filtering. -/
def date_filtered_df (df : List Record) (c : FilterCriteria) : List Record :=
  let d := df.filter (fun r =>
    (decide (c.startDate ≤ r.dteday)) &&
    (decide (r.dteday ≤ c.endDate)) &&
    (c.seasons.contains r.season) &&
    (c.weathers.contains r.weathersit) &&
    (decide (c.tempLo ≤ r.temp) && decide (r.temp ≤ c.tempHi)))
  match c.workingday with
  | .all => d
  | .workingDay => d.filter (fun r => r.workingday == 1)
  | .holidayWeekend => d.filter (fun r => r.workingday == 0)

/-- `hourly_trend` of `src/dashboard/dashboard.py` (line 90). -/
def hourly_trend (df : List Record) : List (Nat × Rat) :=
  (groupKeys (·.hr) df).map fun h => (h, meanOf (·.cnt) (groupRows (·.hr) df h))

/-- `daily_trend` of `src/dashboard/dashboard.py` (line 117). -/
def daily_trend (df : List Record) : List (Nat × Rat) :=
  (groupKeys (·.weekday) df).map fun w => (w, meanOf (·.cnt) (groupRows (·.weekday) df w))

/-- `daily_user_trend` of `src/dashboard/dashboard.py` (line 131). -/
def daily_user_trend (df : List Record) : List (Nat × Rat × Rat) :=
  (groupKeys (·.weekday) df).map fun w =>
    (w, meanOf (·.casual) (groupRows (·.weekday) df w),
        meanOf (·.registered) (groupRows (·.weekday) df w))

/-- `monthly_trend` of `src/dashboard/dashboard.py` (line 157). -/
def monthly_trend (df : List Record) : List (Nat × Rat) :=
  (groupKeys (·.mnth) df).map fun m => (m, meanOf (·.cnt) (groupRows (·.mnth) df m))

/-- `yearly_trend` of `src/dashboard/dashboard.py` (line 183). -/
def yearly_trend (df : List Record) : List (Nat × Rat × Int) :=
  (groupKeys (·.yr) df).map fun y =>
    (y, meanOf (·.cnt) (groupRows (·.yr) df y),
        (((groupRows (·.yr) df y).map (·.cnt)).sum : Int))

/-- `yoy_growth` of `src/dashboard/dashboard.py` (lines 187-188). -/
def yoy_growth (df : List Record) : Option PyFloat :=
  match (yearly_trend df).map (fun row => row.2.2) with
  | s0 :: s1 :: _ => some ((numpyIntDiv (s1 - s0) s0).mul100)
  | _ => none

/-- `rfm_df` of `src/dashboard/dashboard.py` (lines 221-229). -/
def rfm_df (df : List Record) : List (Nat × Int × Nat × Nat) :=
  let last_date := seriesMax 0 (df.map (·.dteday))
  (groupKeys (·.registered) df).map fun v =>
    (v, last_date - seriesMax 0 ((groupRows (·.registered) df v).map (·.dteday)),
        (groupRows (·.registered) df v).length,
        ((groupRows (·.registered) df v).map (·.cnt)).sum)

end D2

/-- C9: the two scripts compute the same pipeline — the filtering step and
the five aggregate tables (hourly, daily with its casual/registered split,
monthly, yearly with its year-over-year growth, customer-RFM) of
`src/dashboard.py` agree row for row and value for value with those of
`src/dashboard/dashboard.py`. -/
theorem C9_pipelines_agree (df : List Record) (c : FilterCriteria) :
    D2.date_filtered_df df c = date_filtered_df df c ∧
    D2.hourly_trend (date_filtered_df df c) = hourly_trend (date_filtered_df df c) ∧
    D2.daily_trend (date_filtered_df df c) = daily_trend (date_filtered_df df c) ∧
    D2.daily_user_trend (date_filtered_df df c) =
      daily_user_trend (date_filtered_df df c) ∧
    D2.monthly_trend (date_filtered_df df c) = monthly_trend (date_filtered_df df c) ∧
    D2.yearly_trend (date_filtered_df df c) = yearly_trend (date_filtered_df df c) ∧
    D2.yoy_growth (date_filtered_df df c) = yoy_growth (date_filtered_df df c) ∧
    D2.rfm_df (date_filtered_df df c) = rfm_df (date_filtered_df df c) :=
  ⟨rfl, rfl, rfl, rfl, rfl, rfl, rfl, rfl⟩

end Bike
